import Mathlib

/-!
Verification of the DemoForums React single-page application client.

The embedding covers the pieces the claims are about:
  * the route table of `router.ts` (shipped inside `src/types/index.ts` here)
    and the auth-guarding `Layout` component (`Layout.tsx`),
  * the `startApp` entry point of `main.tsx`: QueryClient construction with its
    global QueryCache / MutationCache error handlers, the localStorage-gated
    startup prefetch, and the render step,
  * the per-resource cache-time configuration documented in the README
    (`lib/api.ts` is not part of the provided sources, so that configuration is
    modelled from the README's Caching Strategy section).

Pure data is embedded as inductive types; the stateful entry point is embedded
as a function from its inputs (storage contents, prefetch outcome, DOM root
presence) to the ordered list of effects it performs.
-/

namespace DemoForums

/-- A user record as returned by the currentUser query; only its identity
matters for the routing guard. -/
structure User where
  id : Nat
  username : String
deriving DecidableEq, Repr

/-- Raw values that can reach the global cache error handlers: HTTP error
responses, network failures, or anything else thrown. -/
inductive RawError where
  | http (status : Nat) (body : String)
  | network
  | unknown (msg : String)
deriving DecidableEq, Repr

/-- Normalized application error with a code from a small fixed set and a
user-facing message. `lib/errors.ts` declares this class; its shape is also
documented in the README (Centralized Error System). -/
structure AppError where
  code : String
  message : String
deriving DecidableEq, Repr

/-- Modelled from the spec: `lib/errors.ts` is not under the provided sources.
The README states the `AppError` class standardizes error handling with
automatic HTTP error transformation into a small set of type-safe codes
(e.g. "unauthorized"); this function is that single normalization point. -/
def AppError.fromUnknown : RawError → AppError
  | .http 401 _ => ⟨"unauthorized", "You are not authorized"⟩
  | .http 403 _ => ⟨"forbidden", "Access denied"⟩
  | .http 404 _ => ⟨"not_found", "Resource not found"⟩
  | .http 422 _ => ⟨"validation_error", "Validation failed"⟩
  | .http _ _ => ⟨"server_error", "Server error"⟩
  | .network => ⟨"network_error", "Network error"⟩
  | .unknown m => ⟨"unknown", m⟩

/-- Observable effects of the global cache error handlers in `main.tsx`:
an error toast shown to the user, or a console log. -/
inductive Effect where
  | toastError (msg : String)
  | consoleError (tag : String) (e : AppError)
deriving DecidableEq, Repr

/-- Whether an effect is a user-visible notification (toast/banner) as opposed
to a console log. -/
def Effect.isUserVisible : Effect → Bool
  | .toastError _ => true
  | .consoleError _ _ => false

/-- The `QueryCache.onError` handler of the QueryClient built in `startApp`
(`main.tsx`): it shows an error toast with the normalized message only when
the failing query already holds data (`query.state.data !== undefined`,
i.e. a background refetch); otherwise it does nothing. -/
def queryCacheOnError (error : RawError) (dataDefined : Bool) : List Effect :=
  if dataDefined then [.toastError (AppError.fromUnknown error).message] else []

/-- The `MutationCache.onError` handler of the QueryClient built in `startApp`
(`main.tsx`): it logs the normalized error to the console for monitoring. -/
def mutationCacheOnError (error : RawError) : List Effect :=
  [.consoleError "Mutation error:" (AppError.fromUnknown error)]

/-- The page components referenced by the route table in `router.ts`. -/
inductive Page where
  | ForumListPage
  | LoginPage
  | ForumCreatePage
  | PostListPage
  | PostCreatePage
  | PostViewPage
deriving DecidableEq, Repr

/-- Result of matching a path against the route table: the public /login
route, a child route wrapped in `Layout`, or no match. -/
inductive RouteMatch where
  | login
  | layout (child : Page)
  | noMatch
deriving DecidableEq, Repr

/-- Route matching for the `createBrowserRouter` table in `router.ts`, over
the path split into segments. `/login` maps to `LoginPage`; every other
declared route is a child of `Layout`. Static segments outrank dynamic
`:slug` / `:postNumber` segments, matching React Router's route ranking. -/
def matchRoute : List String → RouteMatch
  | ["login"] => .login
  | [] => .layout .ForumListPage
  | ["forums", "new"] => .layout .ForumCreatePage
  | ["forums", _] => .layout .PostListPage
  | ["forums", _, "new"] => .layout .PostCreatePage
  | ["forums", _, _] => .layout .PostViewPage
  | _ => .noMatch

/-- State of a query as observed through `useQuery`: still pending, or
settled with the (possibly absent) data. -/
inductive QueryState (α : Type) where
  | pending
  | settled (data : Option α)
deriving DecidableEq, Repr

/-- What the application renders for a location: the Layout's loading screen,
a `Navigate` redirect, a page component, or nothing (unmatched path). -/
inductive Rendered where
  | loading
  | navigate (dest : String) (replace : Bool)
  | page (p : Page)
  | nothingMatched
deriving DecidableEq, Repr

/-- The `enabled` flag of the currentUser query inside `Layout.tsx`:
the query is disabled when the location is /login. -/
def layoutCurrentUserQueryEnabled (pathname : String) : Bool :=
  pathname ≠ "/login"

/-- The `Layout` component (`Layout.tsx`): while the currentUser query is
pending it renders a loading screen; if the query settled without a user it
renders `<Navigate to="/login" replace />`; otherwise it renders the child
page through `<Outlet />`. -/
def layoutRender (currentUser : QueryState User) (child : Page) : Rendered :=
  match currentUser with
  | .pending => .loading
  | .settled none => .navigate "/login" true
  | .settled (some _) => .page child

/-- Full render of the application for a path: /login renders `LoginPage`
directly (no guard); every other declared route renders through `Layout`. -/
def renderApp (segs : List String) (currentUser : QueryState User) : Rendered :=
  match matchRoute segs with
  | .login => .page .LoginPage
  | .layout child => layoutRender currentUser child
  | .noMatch => .nothingMatched

/-- Client-side storage visible to `startApp`: the session cookie jar
(HttpOnly, sent automatically with requests) and the localStorage auth token
slot consulted by `lib/auth-storage`. -/
structure ClientStorage where
  sessionCookie : Option String
  localStorageAuthToken : Option String
deriving DecidableEq, Repr

/-- Modelled from the spec: `lib/auth-storage.ts` is not under the provided
sources. `main.tsx` calls `authStorage.getAuthToken()` under the comment
"Initialize auth from localStorage", so the accessor reads the auth token
from localStorage, not from cookies. -/
def authStorageGetAuthToken (s : ClientStorage) : Option String :=
  s.localStorageAuthToken

/-- Whether `startApp` (`main.tsx`) runs the startup prefetch of the
currentUser, forums and users queries: it does so exactly when
`authStorage.getAuthToken()` returns a token. -/
def startAppPrefetchRuns (s : ClientStorage) : Bool :=
  (authStorageGetAuthToken s).isSome

/-- Identifier of a QueryClient instance, by creation order. -/
abbrev ClientId := Nat

/-- The router value produced by `createRouter` (`router.ts`): what matters
here is which QueryClient the layout loader closed over. -/
structure Router where
  layoutLoaderClient : Option ClientId
deriving DecidableEq, Repr

/-- `createRouter` (`router.ts`) declares a required `queryClient` parameter
and hands it to `layoutLoader`; a call site that passes no argument supplies
`undefined`, modelled as `none`. -/
def createRouter (queryClient : Option ClientId) : Router :=
  ⟨queryClient⟩

/-- The wiring `startApp` (`main.tsx`) produces: the router together with the
QueryClient handed to `QueryClientProvider`. -/
structure StartAppWiring where
  router : Router
  providerClient : ClientId
deriving DecidableEq, Repr

/-- `startApp` (`main.tsx`) first calls `createRouter()` with no argument,
then constructs the QueryClient and passes that client to
`QueryClientProvider`. -/
def startAppWiring : StartAppWiring :=
  let router := createRouter none
  let queryClient : ClientId := 0
  ⟨router, queryClient⟩

/-- The retry option of TanStack Query: `retry: false`, `retry: true`, or a
numeric bound on retries. -/
inductive RetrySetting where
  | noRetry
  | always
  | upTo (n : Nat)
deriving DecidableEq, Repr

/-- The `defaultOptions` block of a QueryClient, restricted to the retry
settings for queries and mutations. -/
structure QueryClientDefaults where
  queriesRetry : RetrySetting
  mutationsRetry : RetrySetting
deriving DecidableEq, Repr

/-- The `defaultOptions` of the QueryClient built in `startApp` (`main.tsx`):
`retry: false` for queries and for mutations. -/
def startAppQueryClientDefaults : QueryClientDefaults :=
  ⟨.noRetry, .noRetry⟩

/-- TanStack Query retry semantics: whether another attempt follows the
failure numbered `failureCount` (1-based) of a request that failed with the
given HTTP status. `retry: false` never retries; `retry: true` always does;
`retry: n` retries while fewer than `n` retries have happened. -/
def retriesAfterFailure (r : RetrySetting) (failureCount : Nat) (status : Nat) : Bool :=
  match r with
  | .noRetry => false
  | .always => true
  | .upTo n => decide (failureCount < n + 1)

/-- Total number of attempts after which a persistently failing request
settles as an error (`none` when it retries forever). -/
def attemptsUntilError (r : RetrySetting) (status : Nat) : Option Nat :=
  match r with
  | .noRetry => some 1
  | .always => none
  | .upTo n => some (n + 1)

/-- A staleTime / gcTime value: a finite number of milliseconds or Infinity. -/
inductive TimeVal where
  | ms (n : Nat)
  | infinity
deriving DecidableEq, Repr

/-- The cache configuration of one query class. -/
structure CacheTimes where
  staleTime : TimeVal
  gcTime : TimeVal
deriving DecidableEq, Repr

/-- Modelled from the spec: `lib/api.ts` is not under the provided sources;
per the README Caching Strategy, the forums query uses
`staleTime: Infinity, gcTime: Infinity`. -/
def forumsQueryCacheTimes : CacheTimes := ⟨.infinity, .infinity⟩

/-- Modelled from the spec: per the README Caching Strategy, the users query
uses `staleTime: Infinity, gcTime: Infinity`. -/
def usersQueryCacheTimes : CacheTimes := ⟨.infinity, .infinity⟩

/-- Modelled from the spec: per the README Caching Strategy, posts queries use
`staleTime: 1 minute, gcTime: 5 minutes`. -/
def postsQueryCacheTimes : CacheTimes := ⟨.ms 60000, .ms 300000⟩

/-- Modelled from the spec: per the README Caching Strategy, comments queries
use `staleTime: 30 seconds, gcTime: 2 minutes`. -/
def commentsQueryCacheTimes : CacheTimes := ⟨.ms 30000, .ms 120000⟩

/-- TanStack Query staleness: a cached entry older than its staleTime is
stale and eligible for refetch; with `staleTime: Infinity` it never is. -/
def isStale (t : TimeVal) (ageMs : Nat) : Bool :=
  match t with
  | .ms n => decide (n < ageMs)
  | .infinity => false

/-- The queries prefetched at startup. -/
inductive QueryKey where
  | currentUser
  | forums
  | users
deriving DecidableEq, Repr

/-- Ordered effects of the `startApp` entry point (`main.tsx`). -/
inductive StartupEffect where
  | navigateGatewayInit
  | prefetchQuery (k : QueryKey)
  | logPrefetchError
  | renderApplication
  | throwRootNotFound
deriving DecidableEq, Repr

/-- Control flow of `startApp` (`main.tsx`): install the navigation gateway;
if `authStorage.getAuthToken()` returned a token, prefetch the currentUser,
forums and users queries, catching and logging a prefetch failure; then
render into the root element, or throw when it is absent. -/
def startAppRun (authToken : Option String) (prefetchFails rootExists : Bool) :
    List StartupEffect :=
  [.navigateGatewayInit] ++
    (match authToken with
      | some _ =>
          [.prefetchQuery .currentUser, .prefetchQuery .forums, .prefetchQuery .users] ++
            (if prefetchFails then [.logPrefetchError] else [])
      | none => []) ++
    (if rootExists then [.renderApplication] else [.throwRootNotFound])

/-! ## Claims -/

/-- C1: routing is session-guarded. For every path matching a route other
than /login (all of which render through `Layout`), a page component is
rendered only when the currentUser query settled with a defined user; when
that query settles with no user, the application renders a redirect to
/login with replace semantics; and the /login route renders `LoginPage`
regardless of the user state. -/
theorem c1_session_guarded_routing (segs : List String) (st : QueryState User)
    (child : Page) (hmatch : matchRoute segs = RouteMatch.layout child) :
    (∀ p : Page, renderApp segs st = Rendered.page p →
      ∃ u : User, st = QueryState.settled (some u)) ∧
    (st = QueryState.settled none →
      renderApp segs st = Rendered.navigate "/login" true) ∧
    (∀ st2 : QueryState User, renderApp ["login"] st2 = Rendered.page Page.LoginPage) := by
  refine ⟨?_, ?_, fun st2 => rfl⟩
  · intro p hp
    unfold renderApp at hp
    rw [hmatch] at hp
    cases st with
    | pending => simp [layoutRender] at hp
    | settled d =>
      cases d with
      | none => simp [layoutRender] at hp
      | some u => exact ⟨u, rfl⟩
  · intro hst
    subst hst
    unfold renderApp
    rw [hmatch]
    rfl

/-- Witness for C1 at the concrete protected path /forums/general with the
currentUser query settled without a user. -/
theorem c1_session_guarded_routing_witness :
    matchRoute ["forums", "general"] = RouteMatch.layout Page.PostListPage ∧
    renderApp ["forums", "general"] (QueryState.settled none) =
      Rendered.navigate "/login" true := by
  refine ⟨rfl, ?_⟩
  exact (c1_session_guarded_routing ["forums", "general"] (QueryState.settled none)
    Page.PostListPage rfl).2.1 rfl

/-- C2: evaluation of the code at the failing input. Two client-storage
states with the same session cookie but different localStorage contents make
`startApp` behave differently: the startup prefetch is gated on an auth token
read from localStorage, so the program does read client-side storage other
than cookies for session identity. -/
theorem c2_startup_reads_local_storage :
    startAppPrefetchRuns ⟨some "sess", some "tok"⟩ = true ∧
    startAppPrefetchRuns ⟨some "sess", none⟩ = false := by
  exact ⟨rfl, rfl⟩

/-- C3 counterexample: a query failure with no cached data triggers no effect
at all from the global query-cache handler, and a mutation failure triggers
only a console log — neither produces a user-visible notification, so not
every query or mutation failure results in one. -/
theorem c3_counterexample :
    queryCacheOnError (RawError.http 500 "boom") false = [] ∧
    (mutationCacheOnError (RawError.http 500 "boom")).all
      (fun eff => !eff.isUserVisible) = true := by
  exact ⟨rfl, rfl⟩

/-- C3 (amended): the global query-cache handler shows an error toast with
the normalized message exactly when the failing query already has cached data
(a background refetch) and emits nothing otherwise, and the global
mutation-cache handler logs the normalized error to the console without any
user-visible notification. -/
theorem c3_amended_global_notifications (e : RawError) :
    queryCacheOnError e true = [Effect.toastError (AppError.fromUnknown e).message] ∧
    queryCacheOnError e false = [] ∧
    mutationCacheOnError e = [Effect.consoleError "Mutation error:" (AppError.fromUnknown e)] ∧
    (mutationCacheOnError e).all (fun eff => !eff.isUserVisible) = true := by
  refine ⟨rfl, rfl, rfl, ?_⟩
  simp [mutationCacheOnError, Effect.isUserVisible]

/-- C4: error normalization is centralized. Every effect emitted by either
global cache error handler carries `AppError.fromUnknown` applied to the
incoming error — the toast shows the normalized message and the console log
carries the normalized error — so all surfaced errors are AppError values. -/
theorem c4_centralized_normalization (e : RawError) (dataDefined : Bool) (eff : Effect)
    (h : eff ∈ queryCacheOnError e dataDefined ∨ eff ∈ mutationCacheOnError e) :
    eff = Effect.toastError (AppError.fromUnknown e).message ∨
    eff = Effect.consoleError "Mutation error:" (AppError.fromUnknown e) := by
  rcases h with h | h
  · cases dataDefined with
    | false => simp [queryCacheOnError] at h
    | true =>
      left
      simpa [queryCacheOnError] using h
  · right
    simpa [mutationCacheOnError] using h

/-- Witness for C4 at a concrete 500 error reaching the query-cache handler
during a background refetch. -/
theorem c4_centralized_normalization_witness :
    (Effect.toastError (AppError.fromUnknown (RawError.http 500 "x")).message ∈
        queryCacheOnError (RawError.http 500 "x") true ∨
      Effect.toastError (AppError.fromUnknown (RawError.http 500 "x")).message ∈
        mutationCacheOnError (RawError.http 500 "x")) ∧
    (Effect.toastError (AppError.fromUnknown (RawError.http 500 "x")).message =
        Effect.toastError (AppError.fromUnknown (RawError.http 500 "x")).message ∨
      Effect.toastError (AppError.fromUnknown (RawError.http 500 "x")).message =
        Effect.consoleError "Mutation error:" (AppError.fromUnknown (RawError.http 500 "x"))) := by
  refine ⟨Or.inl (by simp [queryCacheOnError]), ?_⟩
  exact c4_centralized_normalization (RawError.http 500 "x") true _
    (Or.inl (by simp [queryCacheOnError]))

/-- C5: cache policies per resource class. Forums and users use
`staleTime: Infinity, gcTime: Infinity` and are never stale (hence never
refetched once loaded); posts use 1 minute / 5 minutes and comments use
30 seconds / 2 minutes. -/
theorem c5_cache_policies :
    forumsQueryCacheTimes = ⟨TimeVal.infinity, TimeVal.infinity⟩ ∧
    usersQueryCacheTimes = ⟨TimeVal.infinity, TimeVal.infinity⟩ ∧
    postsQueryCacheTimes = ⟨TimeVal.ms (1 * 60 * 1000), TimeVal.ms (5 * 60 * 1000)⟩ ∧
    commentsQueryCacheTimes = ⟨TimeVal.ms (30 * 1000), TimeVal.ms (2 * 60 * 1000)⟩ ∧
    (∀ ageMs : Nat, isStale forumsQueryCacheTimes.staleTime ageMs = false) ∧
    (∀ ageMs : Nat, isStale usersQueryCacheTimes.staleTime ageMs = false) := by
  exact ⟨rfl, rfl, rfl, rfl, fun _ => rfl, fun _ => rfl⟩

/-- C6: evaluation of the code at the failing input. `startApp` builds the
router by calling `createRouter()` with no argument before any QueryClient
exists, so the layout loader holds no client at all — in particular not the
client later supplied to `QueryClientProvider`. -/
theorem c6_router_client_mismatch :
    startAppWiring.router.layoutLoaderClient ≠ some startAppWiring.providerClient ∧
    startAppWiring.router.layoutLoaderClient = none := by
  exact ⟨by decide, rfl⟩

/-- C7: no query or mutation is retried. The QueryClient defaults in
`startApp` set `retry: false` for queries and mutations, under which a
failing request is never retried and settles as an error after exactly one
attempt, whatever the HTTP status code. -/
theorem c7_no_retry (failureCount status : Nat) :
    startAppQueryClientDefaults.queriesRetry = RetrySetting.noRetry ∧
    startAppQueryClientDefaults.mutationsRetry = RetrySetting.noRetry ∧
    retriesAfterFailure startAppQueryClientDefaults.queriesRetry failureCount status = false ∧
    retriesAfterFailure startAppQueryClientDefaults.mutationsRetry failureCount status = false ∧
    attemptsUntilError startAppQueryClientDefaults.queriesRetry status = some 1 ∧
    attemptsUntilError startAppQueryClientDefaults.mutationsRetry status = some 1 := by
  exact ⟨rfl, rfl, rfl, rfl, rfl, rfl⟩

/-- C8: startup reaches rendering whenever the root element exists; the
prefetch of currentUser, forums and users runs exactly when an auth token is
present; a failing prefetch is logged and rendering still happens; and the
root-not-found throw never occurs. -/
theorem c8_startup_renders (authToken : Option String) (prefetchFails rootExists : Bool)
    (hroot : rootExists = true) :
    StartupEffect.renderApplication ∈ startAppRun authToken prefetchFails rootExists ∧
    ((StartupEffect.prefetchQuery QueryKey.currentUser ∈
        startAppRun authToken prefetchFails rootExists ∧
      StartupEffect.prefetchQuery QueryKey.forums ∈
        startAppRun authToken prefetchFails rootExists ∧
      StartupEffect.prefetchQuery QueryKey.users ∈
        startAppRun authToken prefetchFails rootExists) ↔ authToken.isSome = true) ∧
    (authToken.isSome = true → prefetchFails = true →
      StartupEffect.logPrefetchError ∈ startAppRun authToken prefetchFails rootExists) ∧
    StartupEffect.throwRootNotFound ∉ startAppRun authToken prefetchFails rootExists := by
  subst hroot
  cases authToken with
  | none => cases prefetchFails <;> simp [startAppRun]
  | some t => cases prefetchFails <;> simp [startAppRun, Option.isSome]

/-- Witness for C8 with an auth token present, a failing prefetch, and the
root element existing. -/
theorem c8_startup_renders_witness :
    (true : Bool) = true ∧
    StartupEffect.renderApplication ∈ startAppRun (some "tok") true true := by
  exact ⟨rfl, (c8_startup_renders (some "tok") true true rfl).1⟩

end DemoForums
